import Mathlib

/-!
Verification of the port-watcher listener API (src/listner-api/app/main.py).

The service exposes two logging routes, `POST /ingest` and `POST /logline`,
which format one log line per accepted request and append it to a log file
through `write_log_line`.  This development shallowly embeds the handler
logic: Python JSON values become the inductive `Json`, `json.dumps` with
`separators` set to comma and colon becomes `Json.dumps`, the Python dict
construction that puts a fresh `ts` field before the caller fields becomes
`dictMerge`, and each handler becomes a pure function from the request data
to an HTTP response together with the list of lines it passes to
`write_log_line`.  File writes, which Python performs with every exception
caught and reported on stderr, are modelled by `write_log_line` acting on a
`WorldState` under a success oracle.

Modelling conventions, stated once here:
- `Request.contentType` is the raw value of the content-type header, with
  the empty string standing for an absent header, exactly as
  `headers.get` with default empty string returns it.
- `Request.bodyText` is the result of decoding the raw body as UTF-8 with
  invalid sequences replaced; that decode is total in Python, so it is a
  plain `String` field here.
- `Request.jsonBody` is the outcome of `request.json()`: `none` when the
  body does not parse as JSON, and `some v` with the parsed value
  otherwise.  Floating-point JSON numbers are not modelled; no claim
  depends on number formatting.
- `str.strip` and `str.lower` are modelled on the ASCII range, which is
  all the claims exercise.
- Time is a parameter: handlers receive the `PyDateTime` returned by
  `datetime.utcnow()`, and `PyDateTime.isoformat` follows the Python
  `datetime.isoformat` format.
-/

/-- Python JSON values as produced by `json.loads` / `request.json()`,
omitting floats.  Objects keep their key order as a list of pairs. -/
inductive Json where
  | null
  | bool (b : Bool)
  | int (n : Int)
  | str (s : String)
  | arr (items : List Json)
  | obj (fields : List (String × Json))
deriving Repr

/-- True exactly on JSON objects: the values on which the Python splat
of the parsed body into a dict literal succeeds. -/
def Json.isObj : Json → Bool
  | .obj _ => true
  | _ => false

/-- True exactly on JSON strings. -/
def Json.isString : Json → Bool
  | .str _ => true
  | _ => false

/-- Lowercase hexadecimal digit, as Python's json encoder emits. -/
def hexDigit (n : Nat) : Char :=
  if n < 10 then Char.ofNat (48 + n) else Char.ofNat (87 + n)

/-- Four lowercase hex digits, the payload of a backslash-u escape. -/
def hex4 (n : Nat) : String :=
  String.mk [hexDigit (n / 4096 % 16), hexDigit (n / 256 % 16),
    hexDigit (n / 16 % 16), hexDigit (n % 16)]

/-- Escaping of one character inside a JSON string literal, following
Python `json.dumps` with its default `ensure_ascii`: the two-character
escapes for backslash, quote, backspace, form feed, newline, carriage
return and tab; printable ASCII kept; everything else as backslash-u,
with a surrogate pair above the basic plane. -/
def escapeChar (c : Char) : String :=
  if c = '\\' then ("\\\\")
  else if c = '\"' then ("\\\"")
  else if c = Char.ofNat 8 then ("\\b")
  else if c = Char.ofNat 12 then ("\\f")
  else if c = '\n' then ("\\n")
  else if c = '\r' then ("\\r")
  else if c = '\t' then ("\\t")
  else if 32 ≤ c.toNat && c.toNat ≤ 126 then String.singleton c
  else if c.toNat ≤ 65535 then ("\\u") ++ hex4 c.toNat
  else
    ("\\u") ++ hex4 (55296 + (c.toNat - 65536) / 1024) ++
    ("\\u") ++ hex4 (56320 + (c.toNat - 65536) % 1024)

/-- A JSON string literal: quote, escaped characters, quote. -/
def jsonQuote (s : String) : String :=
  ("\"") ++ String.join (s.data.map escapeChar) ++ ("\"")

mutual

/-- Python `json.dumps` with separators comma and colon: compact
serialization with no whitespace, in field order. -/
def Json.dumps : Json → String
  | .null => ("null")
  | .bool true => ("true")
  | .bool false => ("false")
  | .int n => toString n
  | .str s => jsonQuote s
  | .arr items => ("[") ++ dumpsItems items ++ ("]")
  | .obj fields => ("\x7b") ++ dumpsFields fields ++ ("\x7d")

/-- Comma-joined serialization of array elements. -/
def dumpsItems : List Json → String
  | [] => ("")
  | [x] => x.dumps
  | x :: y :: rest => x.dumps ++ (",") ++ dumpsItems (y :: rest)

/-- Comma-joined serialization of object fields, key colon value. -/
def dumpsFields : List (String × Json) → String
  | [] => ("")
  | [p] => jsonQuote p.1 ++ (":") ++ p.2.dumps
  | p :: q :: rest => jsonQuote p.1 ++ (":") ++ p.2.dumps ++ (",") ++ dumpsFields (q :: rest)

end

/-- The characters Python `str.strip` removes, on the ASCII range:
space, tab, newline, carriage return, vertical tab, form feed. -/
def pyIsSpace (c : Char) : Bool :=
  c = ' ' || c = '\t' || c = '\n' || c = '\r' || c = Char.ofNat 11 || c = Char.ofNat 12

/-- Python `str.strip()` with no argument: drop leading and trailing
whitespace. -/
def pyStrip (s : String) : String :=
  String.mk (((s.data.dropWhile pyIsSpace).reverse.dropWhile pyIsSpace).reverse)

/-- Python `str.lower()` on the ASCII range. -/
def pyLower (s : String) : String :=
  String.mk (s.data.map Char.toLower)

/-- The content-type normalization on line 55 of main.py: take the header
text before the first semicolon, strip it, lowercase it.  Taking the
characters before the first semicolon is exactly the first element of
the Python split on the semicolon. -/
def normContentType (ct : String) : String :=
  pyLower (pyStrip (String.mk (ct.data.takeWhile (fun c => c != ';'))))

/-- One Python dict assignment `d[k] = v` on an insertion-ordered dict
seen as an association list: an existing key keeps its position and gets
the new value, a new key goes to the end. -/
def dictInsert (d : List (String × Json)) (k : String) (v : Json) : List (String × Json) :=
  if d.any (fun p => p.1 = k) then d.map (fun p => if p.1 = k then (k, v) else p)
  else d ++ [(k, v)]

/-- The dict literal on line 63 of main.py that starts from the fresh
`ts` entry and splats the caller's fields over it, in order, with Python
dict update semantics. -/
def dictMerge (tsv : String) (fields : List (String × Json)) : List (String × Json) :=
  fields.foldl (fun d p => dictInsert d p.1 p.2) [(("ts"), Json.str tsv)]

/-- First-entry lookup in an association list, the reading order of a
serialized object. -/
def dlookup (k : String) : List (String × Json) → Option Json
  | [] => none
  | p :: rest => if p.1 = k then some p.2 else dlookup k rest

/-- Last-entry lookup: the value Python dict construction keeps when the
same key occurs several times. -/
def lastLookup (k : String) : List (String × Json) → Option Json
  | [] => none
  | p :: rest =>
    match lastLookup k rest with
    | some v => some v
    | none => if p.1 = k then some p.2 else none

/-- The wall-clock value `datetime.utcnow()` hands the handler. -/
structure PyDateTime where
  year : Nat
  month : Nat
  day : Nat
  hour : Nat
  minute : Nat
  second : Nat
  microsecond : Nat
deriving Repr

/-- Decimal rendering of `n` left-padded with zeros to width `w`. -/
def padNum (w n : Nat) : String :=
  String.mk (List.replicate (w - (toString n).length) '0') ++ toString n

/-- Python `datetime.isoformat()`: date, the letter T, time, and the
microseconds only when they are nonzero. -/
def PyDateTime.isoformat (d : PyDateTime) : String :=
  padNum 4 d.year ++ ("-") ++ padNum 2 d.month ++ ("-") ++ padNum 2 d.day ++
  ("T") ++ padNum 2 d.hour ++ (":") ++ padNum 2 d.minute ++ (":") ++ padNum 2 d.second ++
  (if d.microsecond = 0 then ("") else (".") ++ padNum 6 d.microsecond)

/-- The timestamp string built on line 56 of main.py: the isoformat of
the current UTC time with the letter Z appended. -/
def mkTs (now : PyDateTime) : String :=
  now.isoformat ++ ("Z")

/-- The request data the handlers consume. -/
structure Request where
  contentType : String
  bodyText : String
  jsonBody : Option Json

/-- An HTTP response: status code and body text.  A FastAPI `Response`
built with only a status code has an empty body; the dict returned by
the logline handler is serialized to its compact JSON form. -/
structure HttpResponse where
  status : Nat
  body : String
deriving Repr, DecidableEq

/-- What one handler invocation produces: the response and the lines it
passes to `write_log_line`, in call order, each still without its
trailing newline. -/
structure HandlerOut where
  response : HttpResponse
  writes : List String

/-- The one unhandled exception the ingest handler can raise: the
TypeError from splatting a non-mapping JSON value into a dict literal
on line 63, outside the try block. -/
inductive PyExn where
  | typeError
deriving Repr, DecidableEq

/-- The ingest handler, lines 52 to 74 of main.py.  JSON content-type:
parse failure gives 400 with body invalid json and no write; a parsed
object is merged under the fresh ts field, dumped compactly, written,
and answered 202 with empty body; any other parsed value raises the
TypeError.  Other content-types: the decoded body is stripped; an empty
result gives 400 with body empty body and no write; otherwise the
timestamp, one space and the payload are written and 202 returned. -/
def ingest (now : PyDateTime) (r : Request) : Except PyExn HandlerOut :=
  let ts := mkTs now
  if normContentType r.contentType = ("application/json") then
    match r.jsonBody with
    | none => Except.ok ⟨⟨400, "invalid json"⟩, []⟩
    | some (Json.obj fields) =>
      Except.ok ⟨⟨202, ""⟩, [Json.dumps (Json.obj (dictMerge ts fields))]⟩
    | some _ => Except.error PyExn.typeError
  else
    let payload := pyStrip r.bodyText
    if payload = ("") then Except.ok ⟨⟨400, "empty body"⟩, []⟩
    else Except.ok ⟨⟨202, ""⟩, [ts ++ (" ") ++ payload]⟩

/-- The logline handler, lines 78 to 84 of main.py: strip the decoded
body, write the timestamp, one space and the payload unconditionally,
and answer 200 with the serialized ok status dict. -/
def log_line (now : PyDateTime) (r : Request) : HandlerOut :=
  let payload := pyStrip r.bodyText
  let ts := mkTs now
  ⟨⟨200, Json.dumps (Json.obj [(("status"), Json.str ("ok"))])⟩, [ts ++ (" ") ++ payload]⟩

/-- The observable world the writer touches: the log file contents and
the stderr diagnostics. -/
structure WorldState where
  file : String
  stderr : List String
deriving Repr, DecidableEq

/-- The stderr diagnostic emitted when a write fails; the Python message
interpolates the exception text, abstracted away here. -/
def writeErrMsg : String :=
  ("[listener] Failed to write log")

/-- write_log_line, lines 43 to 48 of main.py, under an oracle saying
whether the file append succeeds: on success the line plus one newline
is appended to the file; on failure the file is untouched and one
diagnostic goes to stderr.  Every exception is caught, so the function
is total and never propagates a failure. -/
def write_log_line (ok : Bool) (line : String) (w : WorldState) : WorldState :=
  if ok then ⟨w.file ++ line ++ ("\n"), w.stderr⟩
  else ⟨w.file, w.stderr ++ [writeErrMsg]⟩

/-- Perform the handler's writes in order, consuming one oracle entry
per write; a missing oracle entry counts as success. -/
def runWrites : List Bool → List String → WorldState → WorldState
  | _, [], w => w
  | oks, line :: rest, w => runWrites oks.tail rest (write_log_line (oks.headD true) line w)

/-- A full ingest request: run the handler, then perform its writes
against the world.  An uncaught handler exception produces no response. -/
def handleIngest (now : PyDateTime) (oks : List Bool) (w : WorldState) (r : Request) :
    Except PyExn (HttpResponse × WorldState) :=
  (ingest now r).map fun out => (out.response, runWrites oks out.writes w)

/-- A full logline request: run the handler, then perform its writes. -/
def handleLogLine (now : PyDateTime) (oks : List Bool) (w : WorldState) (r : Request) :
    HttpResponse × WorldState :=
  ((log_line now r).response, runWrites oks (log_line now r).writes w)

theorem runWrites_nil (oks : List Bool) (w : WorldState) : runWrites oks [] w = w := by
  cases oks <;> rfl

theorem dlookup_append_some (k : String) (v : Json) (l₁ l₂ : List (String × Json))
    (h : dlookup k l₁ = some v) : dlookup k (l₁ ++ l₂) = some v := by
  induction l₁ with
  | nil => simp [dlookup] at h
  | cons p rest ih =>
    by_cases hp : p.1 = k <;> simp [dlookup, hp] at h ⊢
    · exact h
    · exact ih h

theorem dlookup_append_none (k : String) (l₁ l₂ : List (String × Json))
    (h : dlookup k l₁ = none) : dlookup k (l₁ ++ l₂) = dlookup k l₂ := by
  induction l₁ with
  | nil => simp [dlookup]
  | cons p rest ih =>
    by_cases hp : p.1 = k <;> simp [dlookup, hp] at h ⊢
    exact ih h

theorem dlookup_eq_none_of_any_false (k : String) (l : List (String × Json))
    (h : l.any (fun p => p.1 = k) = false) : dlookup k l = none := by
  induction l with
  | nil => rfl
  | cons p rest ih =>
    simp only [List.any_cons, Bool.or_eq_false_iff, decide_eq_false_iff_not] at h
    simp [dlookup, h.1, ih h.2]

theorem dlookup_map_update (k : String) (v : Json) (l : List (String × Json))
    (h : l.any (fun p => p.1 = k) = true) :
    dlookup k (l.map (fun p => if p.1 = k then (k, v) else p)) = some v := by
  induction l with
  | nil => simp [List.any] at h
  | cons p rest ih =>
    by_cases hp : p.1 = k
    · simp [dlookup, hp]
    · simp [List.any, hp] at h
      simpa [dlookup, hp] using ih (by simpa [List.any] using h)

theorem dlookup_map_other (k k' : String) (v : Json) (l : List (String × Json))
    (h : k' ≠ k) :
    dlookup k (l.map (fun p => if p.1 = k' then (k', v) else p)) = dlookup k l := by
  induction l with
  | nil => rfl
  | cons p rest ih =>
    by_cases hp : p.1 = k'
    · have hk : p.1 ≠ k := by rw [hp]; exact h
      simp [dlookup, hp, hk, h, ih]
    · simp [dlookup, hp, ih]

theorem dlookup_dictInsert (d : List (String × Json)) (k' : String) (v : Json) (k : String) :
    dlookup k (dictInsert d k' v) = if k' = k then some v else dlookup k d := by
  unfold dictInsert
  by_cases hk : k' = k
  · rw [if_pos hk]
    cases hany : d.any (fun p => p.1 = k') with
    | true =>
      rw [if_pos rfl]
      rw [hk] at hany ⊢
      exact dlookup_map_update k v d hany
    | false =>
      rw [if_neg (by simp)]
      rw [hk] at hany ⊢
      have hnone : dlookup k d = none := dlookup_eq_none_of_any_false k d hany
      rw [dlookup_append_none k d _ hnone]
      simp [dlookup]
  · rw [if_neg hk]
    cases hany : d.any (fun p => p.1 = k') with
    | true =>
      rw [if_pos rfl]
      exact dlookup_map_other k k' v d hk
    | false =>
      rw [if_neg (by simp)]
      cases hd : dlookup k d with
      | some w => exact dlookup_append_some k w d _ hd
      | none =>
        rw [dlookup_append_none k d _ hd]
        simp [dlookup, hk]

theorem dlookup_foldl_none (fields : List (String × Json)) (acc : List (String × Json))
    (k : String) (h : lastLookup k fields = none) :
    dlookup k (fields.foldl (fun d p => dictInsert d p.1 p.2) acc) = dlookup k acc := by
  induction fields generalizing acc with
  | nil => rfl
  | cons p rest ih =>
    simp only [lastLookup] at h
    cases hr : lastLookup k rest with
    | some w => rw [hr] at h; exact absurd h (by simp)
    | none =>
      rw [hr] at h
      have hp : ¬ p.1 = k := by
        by_contra hc
        rw [if_pos hc] at h
        exact absurd h (by simp)
      rw [List.foldl_cons, ih (dictInsert acc p.1 p.2) hr, dlookup_dictInsert, if_neg hp]

theorem dlookup_foldl_some (fields : List (String × Json)) (acc : List (String × Json))
    (k : String) (v : Json) (h : lastLookup k fields = some v) :
    dlookup k (fields.foldl (fun d p => dictInsert d p.1 p.2) acc) = some v := by
  induction fields generalizing acc with
  | nil => simp [lastLookup] at h
  | cons p rest ih =>
    simp only [lastLookup] at h
    cases hr : lastLookup k rest with
    | some w =>
      simp only [hr] at h
      obtain rfl : w = v := Option.some.inj h
      rw [List.foldl_cons]
      exact ih (dictInsert acc p.1 p.2) hr
    | none =>
      rw [hr] at h
      have hp : p.1 = k := by
        by_contra hc
        rw [if_neg hc] at h
        exact absurd h (by simp)
      rw [if_pos hp] at h
      rw [List.foldl_cons, dlookup_foldl_none rest (dictInsert acc p.1 p.2) k hr,
        dlookup_dictInsert, if_pos hp]
      exact h

theorem lastLookup_eq_none_iff (k : String) (l : List (String × Json)) :
    lastLookup k l = none ↔ k ∉ l.map Prod.fst := by
  induction l with
  | nil => simp [lastLookup]
  | cons p rest ih =>
    simp only [lastLookup, List.map_cons, List.mem_cons]
    cases hr : lastLookup k rest with
    | some w =>
      simp only [reduceCtorEq, false_iff, not_or]
      intro hcon
      rw [hr] at ih
      exact absurd hcon.2 (by simpa using ih)
    | none =>
      rw [hr] at ih
      by_cases hp : p.1 = k
      · simp [hp]
      · simp only [if_neg hp]
        constructor
        · intro _ hcon
          rcases hcon with hcon | hcon
          · exact hp hcon.symm
          · exact (ih.mp rfl) hcon
        · intro _
          trivial

/-- C1: on POST /ingest with JSON content-type and a body parsing as a
JSON object, the response is 202 with empty body and the appended line
is the compact serialization of the object merged under the fresh ts
key: it contains every key of the posted object plus a ts key, and when
the posted object does not itself carry a ts key, the ts value is the
ISO-8601 UTC timestamp with trailing Z. -/
theorem c1_ingest_json_object (now : PyDateTime) (r : Request)
    (fields : List (String × Json))
    (hct : normContentType r.contentType = ("application/json"))
    (hb : r.jsonBody = some (Json.obj fields)) :
    ingest now r =
      Except.ok ⟨⟨202, ""⟩, [Json.dumps (Json.obj (dictMerge (mkTs now) fields))]⟩ ∧
    (∀ k, k ∈ fields.map Prod.fst →
      (dlookup k (dictMerge (mkTs now) fields)).isSome = true) ∧
    (dlookup ("ts") (dictMerge (mkTs now) fields)).isSome = true ∧
    (("ts") ∉ fields.map Prod.fst →
      dlookup ("ts") (dictMerge (mkTs now) fields) =
        some (Json.str (now.isoformat ++ ("Z")))) := by
  refine ⟨by simp [ingest, hct, hb], ?_, ?_, ?_⟩
  · intro k hk
    have hne : lastLookup k fields ≠ none :=
      fun hn => (lastLookup_eq_none_iff k fields).mp hn hk
    cases hl : lastLookup k fields with
    | none => exact absurd hl hne
    | some v => rw [dictMerge, dlookup_foldl_some fields _ k v hl]; rfl
  · cases hl : lastLookup ("ts") fields with
    | some v => rw [dictMerge, dlookup_foldl_some fields _ _ v hl]; rfl
    | none =>
      rw [dictMerge, dlookup_foldl_none fields _ _ hl]
      simp [dlookup]
  · intro hnot
    have hl : lastLookup ("ts") fields = none :=
      (lastLookup_eq_none_iff _ fields).mpr hnot
    rw [dictMerge, dlookup_foldl_none fields _ _ hl]
    simp [dlookup, mkTs]

/-- C1 witness: a concrete object with keys a and b, no ts collision. -/
theorem c1_ingest_json_object_witness :
    ingest ⟨2024, 5, 6, 7, 8, 9, 0⟩
        ⟨("application/json"), (""), some (Json.obj [(("a"), Json.int 1)])⟩ =
      Except.ok ⟨⟨202, ""⟩,
        [Json.dumps (Json.obj (dictMerge (mkTs ⟨2024, 5, 6, 7, 8, 9, 0⟩)
          [(("a"), Json.int 1)]))]⟩ ∧
    dlookup ("ts") (dictMerge (mkTs ⟨2024, 5, 6, 7, 8, 9, 0⟩) [(("a"), Json.int 1)]) =
      some (Json.str ((⟨2024, 5, 6, 7, 8, 9, 0⟩ : PyDateTime).isoformat ++ ("Z"))) := by
  have h := c1_ingest_json_object ⟨2024, 5, 6, 7, 8, 9, 0⟩
    ⟨("application/json"), (""), some (Json.obj [(("a"), Json.int 1)])⟩
    [(("a"), Json.int 1)] (by rfl) (by rfl)
  exact ⟨h.1, h.2.2.2 (by simp)⟩

/-- C1 counterexample: posting the object with the single field ts set
to the number 5 yields 202 and appends the serialization of an object
whose ts value is the caller's number 5, which is not a JSON string at
all, hence not an ISO-8601 timestamp with trailing Z. -/
theorem c1_counterexample :
    ingest ⟨2024, 5, 6, 7, 8, 9, 0⟩
        ⟨("application/json"), (""), some (Json.obj [(("ts"), Json.int 5)])⟩ =
      Except.ok ⟨⟨202, ""⟩, [Json.dumps (Json.obj (dictMerge
        (mkTs ⟨2024, 5, 6, 7, 8, 9, 0⟩) [(("ts"), Json.int 5)]))]⟩ ∧
    dlookup ("ts") (dictMerge (mkTs ⟨2024, 5, 6, 7, 8, 9, 0⟩) [(("ts"), Json.int 5)]) =
      some (Json.int 5) ∧
    (dlookup ("ts") (dictMerge (mkTs ⟨2024, 5, 6, 7, 8, 9, 0⟩)
      [(("ts"), Json.int 5)])).map Json.isString = some false := by
  refine ⟨rfl, rfl, rfl⟩

/-- C2: every accepted request, a 202 from ingest or the unconditional
200 from logline, hands exactly one line to the writer as part of
producing its response, and performing that single successful write
appends the line with exactly one trailing newline to the file. -/
theorem c2_one_append_per_accepted (now : PyDateTime) (r : Request) :
    (∀ out, ingest now r = Except.ok out → out.response.status = 202 →
      out.writes.length = 1) ∧
    ((log_line now r).response.status = 200 ∧ (log_line now r).writes.length = 1) ∧
    (∀ line w, runWrites [true] [line] w = ⟨w.file ++ line ++ ("\n"), w.stderr⟩) := by
  refine ⟨?_, ⟨rfl, rfl⟩, fun line w => rfl⟩
  intro out hout h202
  by_cases hct : normContentType r.contentType = ("application/json")
  · cases hjb : r.jsonBody with
    | none =>
      simp [ingest, hct, hjb] at hout
      rw [← hout] at h202
      simp at h202
    | some j =>
      cases j <;> simp [ingest, hct, hjb] at hout
      rw [← hout]
      rfl
  · by_cases hp : pyStrip r.bodyText = ("")
    · simp [ingest, hct, hp] at hout
      rw [← hout] at h202
      simp at h202
    · simp [ingest, hct, hp] at hout
      rw [← hout]
      rfl

/-- C2 witness: a concrete text ingest and the concrete logline both
produce exactly one write. -/
theorem c2_one_append_per_accepted_witness :
    (⟨⟨202, ""⟩, [mkTs ⟨2024, 1, 1, 0, 0, 0, 0⟩ ++ (" ") ++ ("hi")]⟩ : HandlerOut).writes.length = 1 ∧
    (log_line ⟨2024, 1, 1, 0, 0, 0, 0⟩ ⟨("text/plain"), ("hi"), none⟩).writes.length = 1 := by
  have h := c2_one_append_per_accepted ⟨2024, 1, 1, 0, 0, 0, 0⟩
    ⟨("text/plain"), ("hi"), none⟩
  exact ⟨h.1 ⟨⟨202, ""⟩, [mkTs ⟨2024, 1, 1, 0, 0, 0, 0⟩ ++ (" ") ++ ("hi")]⟩ rfl rfl,
    h.2.1.2⟩

/-- C3: the append writer writes the line plus exactly one newline on
success; on failure it leaves the file untouched, emits one stderr
diagnostic and raises nothing, so both route handlers return the very
same response whether the underlying write succeeds or fails. -/
theorem c3_append_writer_swallows_failure (line : String) (w : WorldState)
    (now : PyDateTime) (oks oks' : List Bool) (r : Request) :
    write_log_line true line w = ⟨w.file ++ line ++ ("\n"), w.stderr⟩ ∧
    write_log_line false line w = ⟨w.file, w.stderr ++ [writeErrMsg]⟩ ∧
    (handleIngest now oks w r).map Prod.fst = (handleIngest now oks' w r).map Prod.fst ∧
    (handleLogLine now oks w r).1 = (handleLogLine now oks' w r).1 := by
  refine ⟨rfl, rfl, ?_, rfl⟩
  unfold handleIngest
  cases h : ingest now r <;> simp [h, Except.map]

/-- C4: when the posted JSON object itself carries a ts key, the logged
object's ts value is the caller's (last) ts value: the caller field
overwrites the injected server timestamp, and the request is still
accepted with 202 and the merged object serialized. -/
theorem c4_ts_collision_overwrites (now : PyDateTime) (r : Request)
    (fields : List (String × Json))
    (hct : normContentType r.contentType = ("application/json"))
    (hb : r.jsonBody = some (Json.obj fields))
    (hcol : ("ts") ∈ fields.map Prod.fst) :
    dlookup ("ts") (dictMerge (mkTs now) fields) = lastLookup ("ts") fields ∧
    ingest now r = Except.ok ⟨⟨202, ""⟩,
      [Json.dumps (Json.obj (dictMerge (mkTs now) fields))]⟩ := by
  refine ⟨?_, by simp [ingest, hct, hb]⟩
  have hne : lastLookup ("ts") fields ≠ none :=
    fun hn => (lastLookup_eq_none_iff _ fields).mp hn hcol
  cases hl : lastLookup ("ts") fields with
  | none => exact absurd hl hne
  | some v => rw [dictMerge, dlookup_foldl_some fields _ _ v hl]

/-- C4 witness: the object with ts mapped to the number 5. -/
theorem c4_ts_collision_overwrites_witness :
    dlookup ("ts") (dictMerge (mkTs ⟨2024, 2, 3, 4, 5, 6, 0⟩) [(("ts"), Json.int 5)]) =
      lastLookup ("ts") [(("ts"), Json.int 5)] :=
  (c4_ts_collision_overwrites ⟨2024, 2, 3, 4, 5, 6, 0⟩
    ⟨("application/json"), (""), some (Json.obj [(("ts"), Json.int 5)])⟩
    [(("ts"), Json.int 5)] rfl rfl (by simp)).1

/-- C5: a JSON content-type body that fails to parse yields 400 with
body invalid json, and the full request leaves the world, in particular
the log file, unchanged: no line is appended. -/
theorem c5_invalid_json_no_write (now : PyDateTime) (r : Request)
    (hct : normContentType r.contentType = ("application/json"))
    (hb : r.jsonBody = none) :
    ingest now r = Except.ok ⟨⟨400, "invalid json"⟩, []⟩ ∧
    ∀ oks w, handleIngest now oks w r = Except.ok (⟨400, "invalid json"⟩, w) := by
  have h1 : ingest now r = Except.ok ⟨⟨400, "invalid json"⟩, []⟩ := by
    simp [ingest, hct, hb]
  exact ⟨h1, fun oks w => by simp [handleIngest, h1, runWrites_nil, Except.map]⟩

/-- C5 witness: a concrete unparseable body. -/
theorem c5_invalid_json_no_write_witness :
    handleIngest ⟨2024, 2, 3, 4, 5, 6, 0⟩ [true] ⟨("previous\n"), []⟩
      ⟨("application/json"), ("x"), none⟩ =
      Except.ok (⟨400, "invalid json"⟩, ⟨("previous\n"), []⟩) :=
  (c5_invalid_json_no_write ⟨2024, 2, 3, 4, 5, 6, 0⟩
    ⟨("application/json"), ("x"), none⟩ rfl rfl).2 [true] ⟨("previous\n"), []⟩

/-- C6: a non-JSON content-type body that strips to empty yields 400
with body empty body and appends nothing: the world is unchanged. -/
theorem c6_empty_text_body_rejected (now : PyDateTime) (r : Request)
    (hct : normContentType r.contentType ≠ ("application/json"))
    (hb : pyStrip r.bodyText = ("")) :
    ingest now r = Except.ok ⟨⟨400, "empty body"⟩, []⟩ ∧
    ∀ oks w, handleIngest now oks w r = Except.ok (⟨400, "empty body"⟩, w) := by
  have h1 : ingest now r = Except.ok ⟨⟨400, "empty body"⟩, []⟩ := by
    simp [ingest, hct, hb]
  exact ⟨h1, fun oks w => by simp [handleIngest, h1, runWrites_nil, Except.map]⟩

/-- C6 witness: whitespace-only body under a text content-type. -/
theorem c6_empty_text_body_rejected_witness :
    handleIngest ⟨2024, 2, 3, 4, 5, 6, 0⟩ [true] ⟨("previous\n"), []⟩
      ⟨("text/plain"), ("  \n"), none⟩ =
      Except.ok (⟨400, "empty body"⟩, ⟨("previous\n"), []⟩) :=
  (c6_empty_text_body_rejected ⟨2024, 2, 3, 4, 5, 6, 0⟩
    ⟨("text/plain"), ("  \n"), none⟩ (by decide) rfl).2 [true] ⟨("previous\n"), []⟩

/-- C7: a non-JSON content-type body stripping to a non-empty payload P
is accepted with 202 and the single written line is the ISO-8601 UTC
timestamp with trailing Z, one space, then P verbatim. -/
theorem c7_text_ingest_timestamp_prefix (now : PyDateTime) (r : Request) (P : String)
    (hct : normContentType r.contentType ≠ ("application/json"))
    (hp : pyStrip r.bodyText = P) (hne : P ≠ ("")) :
    ingest now r = Except.ok ⟨⟨202, ""⟩, [now.isoformat ++ ("Z") ++ (" ") ++ P]⟩ := by
  simp [ingest, hct, hp, hne, mkTs]

/-- C7 witness: an absent content-type header and a padded hello body. -/
theorem c7_text_ingest_timestamp_prefix_witness :
    ingest ⟨2024, 2, 3, 4, 5, 6, 0⟩ ⟨(""), (" hello "), none⟩ =
      Except.ok ⟨⟨202, ""⟩,
        [(⟨2024, 2, 3, 4, 5, 6, 0⟩ : PyDateTime).isoformat ++ ("Z") ++ (" ") ++ ("hello")]⟩ :=
  c7_text_ingest_timestamp_prefix ⟨2024, 2, 3, 4, 5, 6, 0⟩
    ⟨(""), (" hello "), none⟩ ("hello") (by decide) rfl (by decide)

/-- C8: POST /logline accepts every body: it always answers 200 with the
serialized ok status object and always hands the writer exactly one
timestamp-prefixed line, the stripped payload after the timestamp and a
space; no empty-body rejection happens here. -/
theorem c8_logline_unconditional (now : PyDateTime) (r : Request) :
    log_line now r = ⟨⟨200, Json.dumps (Json.obj [(("status"), Json.str ("ok"))])⟩,
      [now.isoformat ++ ("Z") ++ (" ") ++ pyStrip r.bodyText]⟩ ∧
    (log_line now r).response.status = 200 ∧
    (log_line now r).writes.length = 1 :=
  ⟨rfl, rfl, rfl⟩

/-- C9: a JSON content-type body parsing to a non-object value makes the
handler raise the unhandled TypeError from the dict splat instead of
returning any response, so the guarded 400 invalid json branch covers
parse failures only, not shape failures. -/
theorem c9_nonobject_json_raises (now : PyDateTime) (r : Request) (j : Json)
    (hct : normContentType r.contentType = ("application/json"))
    (hb : r.jsonBody = some j) (hno : j.isObj = false) :
    ingest now r = Except.error PyExn.typeError ∧
    ∀ out, ingest now r ≠ Except.ok out := by
  have h1 : ingest now r = Except.error PyExn.typeError := by
    cases j with
    | obj fields => simp [Json.isObj] at hno
    | null => simp [ingest, hct, hb]
    | bool b => simp [ingest, hct, hb]
    | int n => simp [ingest, hct, hb]
    | str s => simp [ingest, hct, hb]
    | arr items => simp [ingest, hct, hb]
  exact ⟨h1, fun out hout => by rw [h1] at hout; exact Except.noConfusion hout⟩

/-- C9 witness: a JSON array body. -/
theorem c9_nonobject_json_raises_witness :
    ingest ⟨2024, 2, 3, 4, 5, 6, 0⟩
        ⟨("application/json"), ("[]"), some (Json.arr [])⟩ =
      Except.error PyExn.typeError :=
  (c9_nonobject_json_raises ⟨2024, 2, 3, 4, 5, 6, 0⟩
    ⟨("application/json"), ("[]"), some (Json.arr [])⟩ (Json.arr []) rfl rfl rfl).1

/-- C10: when the logline body strips to the empty string, the single
written line is exactly the timestamp followed by one trailing space:
the separating space is emitted even for an empty payload. -/
theorem c10_logline_empty_trailing_space (now : PyDateTime) (r : Request)
    (hb : pyStrip r.bodyText = ("")) :
    (log_line now r).writes = [now.isoformat ++ ("Z") ++ (" ")] := by
  simp [log_line, hb, mkTs, String.append_empty]

/-- C10 witness: a whitespace-only logline body. -/
theorem c10_logline_empty_trailing_space_witness :
    (log_line ⟨2024, 2, 3, 4, 5, 6, 0⟩ ⟨("text/plain"), (" \n"), none⟩).writes =
      [(⟨2024, 2, 3, 4, 5, 6, 0⟩ : PyDateTime).isoformat ++ ("Z") ++ (" ")] :=
  c10_logline_empty_trailing_space ⟨2024, 2, 3, 4, 5, 6, 0⟩
    ⟨("text/plain"), (" \n"), none⟩ rfl
